import Mathlib

/-!
Verification development for the openkitx403-demo-apps repository.

The repository's demos (a LangChain agent CLI, two FastAPI backends and a
trading bot loop) all use one shared mechanism: the openkitx403
signed-request protocol (canonical encoder, credential signer, credential
verifier, interceptor).  The protocol library itself is not part of the
demo sources; its contract is reconstructed here from the specification.
The demo-side route handlers and LangChain tools are embedded directly
from the Python sources under src/.
-/

namespace OpenKit

/-! ## Protocol data model (modelled from the spec) -/

/-- Modelled from the spec: an asymmetric signing keypair.  The public half
is the bearer's durable identity (an address); the private half never
leaves the client.  Cryptography is modelled symbolically: addresses are
strings and the secret is an opaque natural number. -/
structure Keypair where
  address : String
  secret : Nat
deriving DecidableEq, Repr

/-- Modelled from the spec: the Canonical Request Descriptor, an ordered
fixed-shape tuple of the authenticable facts of a request.  The spec
requires the byte encoding to be deterministic and free of field-boundary
ambiguity (length-prefixed or delimited framing); an injective framing is
modelled by keeping the fields as a structure, so two descriptors encode
equally exactly when all fields agree. -/
structure CanonicalBytes where
  method : String
  path : String
  audience : String
  issuer : String
  timestamp : Nat
  body_digest : String
deriving DecidableEq, Repr

/-- Modelled from the spec: the canonical encoder
`encode(method, path, audience, issuer, timestamp, body_digest)`.
Pure, deterministic, unambiguous framing (see `CanonicalBytes`). -/
def encode (method path audience issuer : String) (timestamp : Nat)
    (body_digest : String) : CanonicalBytes :=
  ⟨method, path, audience, issuer, timestamp, body_digest⟩

/-- Modelled from the spec: the fixed cryptographic body digest.  Absence of
a body maps to the digest of the empty byte string.  The hash itself is
modelled symbolically as an injective tagging of the body. -/
def bodyDigest (body : Option String) : String :=
  "H(" ++ body.getD "" ++ ")"

/-- Modelled from the spec: a digital signature, symbolically.  A signature
produced with a keypair records the signer's public address and the exact
message that was signed; verification against an address and a message
succeeds exactly when both match.  This is the standard symbolic
(Dolev-Yao style) model: signatures cannot be forged, and any other value
is an invalid signature. -/
structure Signature where
  signerAddress : String
  message : CanonicalBytes
deriving DecidableEq, Repr

/-- Modelled from the spec: signing canonical bytes with the private key. -/
def signBytes (kp : Keypair) (msg : CanonicalBytes) : Signature :=
  ⟨kp.address, msg⟩

/-- Modelled from the spec: checking a signature against a claimed public
address and a message. -/
def verifySig (address : String) (msg : CanonicalBytes) (sig : Signature) : Bool :=
  sig.signerAddress = address && sig.message = msg

/-- Modelled from the spec: the Credential Token
`{address, signature, timestamp, audience, issuer, method, path, body_digest}`,
created per outgoing request by the signer, immutable once created. -/
structure CredentialToken where
  address : String
  signature : Signature
  timestamp : Nat
  audience : String
  issuer : String
  method : String
  path : String
  body_digest : String
deriving DecidableEq, Repr

/-- Modelled from the spec: the server-side Verification Config, set once at
startup: audience and issuer matched exactly, positive ttl, non-negative
clock skew, the method/path binding toggle, the excluded paths and the
optional origin allowlist. -/
structure VerificationConfig where
  audience : String
  issuer : String
  ttl_seconds : Nat
  clock_skew_seconds : Nat
  bind_method_path : Bool
  excluded_paths : List String
  allowed_origins : Option (List String)
deriving DecidableEq, Repr

/-- Modelled from the spec: the authenticable view of an incoming request as
seen by the verifier: its method, its path, and its declared origin. -/
structure IncomingRequest where
  method : String
  path : String
  origin : String
deriving DecidableEq, Repr

/-- Modelled from the spec: the Authenticated Identity produced by a
successful verification. -/
structure AuthenticatedIdentity where
  address : String
deriving DecidableEq, Repr

/-- Modelled from the spec: the client-facing rejection taxonomy. -/
inductive RejectionReason where
  | MALFORMED_TOKEN
  | MISSING_TOKEN
  | INVALID_SIGNATURE
  | EXPIRED
  | NOT_YET_VALID
  | AUDIENCE_MISMATCH
  | ISSUER_MISMATCH
  | BINDING_MISMATCH
  | ORIGIN_REJECTED
deriving DecidableEq, Repr

/-- Modelled from the spec: the Credential Signer
`sign(keypair, method, url, audience, issuer, body)`.  The caller-side url
is already reduced to a path here (the spec pins path derivation as a shared
canonicalization); `timestamp` stands for the signer's `now()`.  The token
carries the public address, the signature over the canonical bytes, and
every claim the verifier needs to recompute those bytes. -/
def sign (kp : Keypair) (method path audience issuer : String)
    (timestamp : Nat) (body : Option String) : CredentialToken :=
  let digest := bodyDigest body
  let bytes := encode method path audience issuer timestamp digest
  { address := kp.address
    signature := signBytes kp bytes
    timestamp := timestamp
    audience := audience
    issuer := issuer
    method := method
    path := path
    body_digest := digest }

/-- Modelled from the spec: the verifier's signature check, recomputing the
canonical bytes from the token's own claims (not yet from the live request)
and checking the signature against the token's claimed address. -/
def signatureValid (token : CredentialToken) : Bool :=
  verifySig token.address
    (encode token.method token.path token.audience token.issuer
      token.timestamp token.body_digest)
    token.signature

/-- Modelled from the spec: the Credential Verifier
`verify(config, incoming_request, token)`, with `now` the verifier's clock
reading.  Checks run in the spec's order, failing fast: signature over the
token's own claims, freshness window
`-clock_skew_seconds <= now - timestamp <= ttl_seconds + clock_skew_seconds`,
audience, issuer, method/path binding only when `bind_method_path` is set,
and the origin allowlist only when configured.  The structural check
(`MALFORMED_TOKEN`) is subsumed by the typed embedding: a `CredentialToken`
value has every field present and well-typed. -/
def verify (config : VerificationConfig) (req : IncomingRequest)
    (token : CredentialToken) (now : Nat) :
    Except RejectionReason AuthenticatedIdentity :=
  if ¬ signatureValid token = true then
    .error .INVALID_SIGNATURE
  else if (now : Int) - (token.timestamp : Int) >
      (config.ttl_seconds : Int) + (config.clock_skew_seconds : Int) then
    .error .EXPIRED
  else if (now : Int) - (token.timestamp : Int) <
      -(config.clock_skew_seconds : Int) then
    .error .NOT_YET_VALID
  else if ¬ (token.audience = config.audience) then
    .error .AUDIENCE_MISMATCH
  else if ¬ (token.issuer = config.issuer) then
    .error .ISSUER_MISMATCH
  else if config.bind_method_path &&
      (token.method ≠ req.method || token.path ≠ req.path) then
    .error .BINDING_MISMATCH
  else
    match config.allowed_origins with
    | none => .ok ⟨token.address⟩
    | some origins =>
      if req.origin ∈ origins then .ok ⟨token.address⟩
      else .error .ORIGIN_REJECTED

/-- Modelled from the spec: the outcome of the per-request Interceptor.
Either the path was excluded and the request passes through with no
identity attached, or verification succeeded and the identity is attached,
or the request is rejected and route logic is never invoked. -/
inductive InterceptOutcome where
  | passthrough
  | proceed (identity : AuthenticatedIdentity)
  | reject (reason : RejectionReason)
deriving DecidableEq, Repr

/-- Modelled from the spec: the Interceptor.  Requests whose path is in
`excluded_paths` (exact membership) bypass token extraction and
verification entirely; on any other path a missing token is itself a
rejection (`MISSING_TOKEN`), and otherwise the verifier decides. -/
def intercept (config : VerificationConfig) (req : IncomingRequest)
    (token : Option CredentialToken) (now : Nat) : InterceptOutcome :=
  if req.path ∈ config.excluded_paths then
    .passthrough
  else
    match token with
    | none => .reject .MISSING_TOKEN
    | some t =>
      match verify config req t now with
      | .ok identity => .proceed identity
      | .error r => .reject r

/-! ## Trading backend embedding (src/demo-python/backend/main.py) -/

/-- A value stored in `connected_bots` by `register_bot`
(src/demo-python/backend/main.py, lines 129-133). -/
structure BotInfo where
  address : String
  connected_at : String
  status : String
deriving DecidableEq, Repr

/-- The response returned by `register_bot`
(src/demo-python/backend/main.py, lines 142-147). -/
structure RegisterResponse where
  success : Bool
  bot_id : String
  address : String
  message : String
deriving DecidableEq, Repr

/-- Python dict assignment `connected_bots[bot_id] = info`, embedded on an
association list: the new binding shadows any previous binding of the key. -/
def dictSet (m : List (String × BotInfo)) (k : String) (v : BotInfo) :
    List (String × BotInfo) :=
  (k, v) :: m.filter (fun p => p.1 ≠ k)

/-- `register_bot` from src/demo-python/backend/main.py, lines 126-147:
derives `bot_id` as the first 8 characters of the verified address, records
the bot in `connected_bots`, and returns the registration payload.
The websocket broadcast is presentation glue and carries no state. -/
def register_bot (bots : List (String × BotInfo)) (user : AuthenticatedIdentity)
    (nowIso : String) : List (String × BotInfo) × RegisterResponse :=
  let bot_id := user.address.take 8
  let bots2 := dictSet bots bot_id
    { address := user.address, connected_at := nowIso, status := "active" }
  (bots2, { success := true, bot_id := bot_id, address := user.address,
            message := "Bot registered successfully" })

/-- The JSON body accepted by `execute_trade`; every field is read with a
`.get` default (src/demo-python/backend/main.py, lines 175-178). -/
structure TradeData where
  type : Option String
  asset : Option String
  amount : Option ℚ
  price : Option ℚ
deriving Repr

/-- An entry of the `bot_activities` log
(src/demo-python/backend/main.py, lines 172-181). -/
structure Activity where
  id : Nat
  bot_id : String
  type : String
  asset : String
  amount : ℚ
  price : ℚ
  timestamp : String
  status : String
deriving Repr

/-- `execute_trade` from src/demo-python/backend/main.py, lines 167-196:
builds an activity with `id = len(bot_activities) + 1`, inserts it at index
0, and pops the last element when the log exceeds 100 entries.  Returns the
new activity together with the updated log. -/
def executeTrade (acts : List Activity) (user : AuthenticatedIdentity)
    (trade : TradeData) (nowIso : String) : Activity × List Activity :=
  let activity : Activity :=
    { id := acts.length + 1
      bot_id := user.address.take 8
      type := trade.type.getD "buy"
      asset := trade.asset.getD "SOL"
      amount := trade.amount.getD 1
      price := trade.price.getD 100
      timestamp := nowIso
      status := "executed" }
  let acts1 := activity :: acts
  let acts2 := if acts1.length > 100 then acts1.dropLast else acts1
  (activity, acts2)

/-- The process state of the trading backend: the middleware configuration
passed once to `app.add_middleware` at startup, and the two in-memory
stores (src/demo-python/backend/main.py, lines 39-51). -/
structure AppState where
  config : VerificationConfig
  bot_activities : List Activity
  connected_bots : List (String × BotInfo)

/-- One request to the trading backend, dispatched to its route handler. -/
inductive RouteCall where
  | health
  | registerBot (user : AuthenticatedIdentity) (nowIso : String)
  | marketPrices (user : AuthenticatedIdentity)
  | executeTradeCall (user : AuthenticatedIdentity) (trade : TradeData) (nowIso : String)
  | botStatus (user : AuthenticatedIdentity)
  | getActivities (user : AuthenticatedIdentity)

/-- Request dispatch for the trading backend.  Only `register_bot` and
`execute_trade` write to the in-memory stores; `health`, `market/prices`,
`bot/status` and `activities` are read-only (they build their responses
from the state without writing), and no handler touches the middleware
configuration (src/demo-python/backend/main.py, lines 83-224). -/
def handleRequest (s : AppState) (c : RouteCall) : AppState :=
  match c with
  | .registerBot user nowIso =>
    { s with connected_bots := (register_bot s.connected_bots user nowIso).1 }
  | .executeTradeCall user trade nowIso =>
    { s with bot_activities := (executeTrade s.bot_activities user trade nowIso).2 }
  | _ => s

/-! ## Agent backend embedding (src/demo-langchain/backend/main.py) -/

/-- One holding in the portfolio payload
(src/demo-langchain/backend/main.py, lines 58-62). -/
structure PortfolioItem where
  asset : String
  amount : ℚ
  value_usd : ℚ
  change_24h : ℚ
deriving Repr

/-- The `/api/portfolio` response model
(src/demo-langchain/backend/main.py, lines 65-68). -/
structure PortfolioResponse where
  wallet : String
  total_value_usd : ℚ
  items : List PortfolioItem
deriving Repr

/-- `get_portfolio` from src/demo-langchain/backend/main.py, lines 139-168:
the protected route handler; the verified identity supplies the wallet
field and the holdings are fixed demo data. -/
def get_portfolio (user : AuthenticatedIdentity) : PortfolioResponse :=
  { wallet := user.address
    total_value_usd := 17800
    items :=
      [ { asset := "SOL", amount := 125.5, value_usd := 12550, change_24h := 2.5 }
      , { asset := "USDC", amount := 5000, value_usd := 5000, change_24h := 0 }
      , { asset := "BONK", amount := 1000000, value_usd := 250, change_24h := -5.2 } ] }

/-! ## LangChain tool embedding (src/demo-langchain/agent/tools.py) -/

/-- An HTTP response as seen by the tools: status code, raw text, and the
decoded JSON body of type `α`. -/
structure HttpResponse (α : Type) where
  status_code : Nat
  text : String
  body : α

/-- `SolanaAuthTool._authenticate_request` from
src/demo-langchain/agent/tools.py, lines 41-54.  The keypair load and the
network call are the two fallible effects; each is embedded as an
`Except String` value, an `error` standing for a raised exception carrying
its message.  A non-200 status raises `API returned {code}: {text}`, and
the enclosing handler re-raises every failure as
`Authentication request failed: {e}`. -/
def authenticate_request {α : Type} (loadKeypair : Except String Keypair)
    (send : Keypair → Except String (HttpResponse α)) : Except String α :=
  let attempt : Except String α :=
    match loadKeypair with
    | .error e => .error e
    | .ok kp =>
      match send kp with
      | .error e => .error e
      | .ok resp =>
        if resp.status_code ≠ 200 then
          .error ("API returned " ++ toString resp.status_code ++ ": " ++ resp.text)
        else
          .ok resp.body
  match attempt with
  | .ok v => .ok v
  | .error e => .error ("Authentication request failed: " ++ e)

/-- The portfolio JSON as consumed by `GetPortfolioTool._run`: every field
is read with a `.get` default (src/demo-langchain/agent/tools.py,
lines 76-78). -/
structure PortfolioJson where
  wallet : Option String
  total_value_usd : Option ℚ
  items : List PortfolioItem

/-- The success-branch rendering of `GetPortfolioTool._run`
(src/demo-langchain/agent/tools.py, lines 80-94).  Python's locale-style
numeric formatting is abstracted by `toString`; the shape of the summary
(header, wallet, total, one line per holding) is kept. -/
def renderPortfolio (d : PortfolioJson) : String :=
  let header := "Portfolio Summary\nWallet: " ++ d.wallet.getD "Unknown"
    ++ "\nTotal Value: $" ++ toString (d.total_value_usd.getD 0) ++ "\n\nHoldings:\n"
  d.items.foldl (fun acc item =>
    acc ++ "  - " ++ item.asset ++ ": " ++ toString item.amount
      ++ " tokens ($" ++ toString item.value_usd ++ ") ["
      ++ toString item.change_24h ++ "% 24h]\n") header

/-- `GetPortfolioTool._run` from src/demo-langchain/agent/tools.py,
lines 72-96: calls `_authenticate_request("/api/portfolio")` inside a
`try`, renders the data on success, and catches every exception, returning
`Error fetching portfolio: {e}` instead of propagating. -/
def get_portfolio_run (loadKeypair : Except String Keypair)
    (send : Keypair → Except String (HttpResponse PortfolioJson)) : String :=
  match authenticate_request loadKeypair send with
  | .ok d => renderPortfolio d
  | .error e => "Error fetching portfolio: " ++ e

/-- The analysis JSON as consumed by `AnalyzePortfolioTool._run`
(src/demo-langchain/agent/tools.py, lines 257-261). -/
structure AnalysisJson where
  wallet : Option String
  risk_score : Option ℚ
  diversification : Option String
  recommendations : List String
  highlights : List String

/-- The success-branch rendering of `AnalyzePortfolioTool._run`
(src/demo-langchain/agent/tools.py, lines 263-279), with numeric formatting
abstracted by `toString`. -/
def renderAnalysis (d : AnalysisJson) : String :=
  let header := "Portfolio Analysis\nWallet: " ++ d.wallet.getD "Unknown"
    ++ "\n\nRisk Score: " ++ toString (d.risk_score.getD 0)
    ++ "/10\nDiversification: " ++ d.diversification.getD "Unknown" ++ "\n\n"
  let withHighlights :=
    if d.highlights.isEmpty then header
    else (d.highlights.foldl (fun acc h => acc ++ "  - " ++ h ++ "\n")
      (header ++ "Highlights:\n")) ++ "\n"
  if d.recommendations.isEmpty then withHighlights
  else d.recommendations.foldl (fun acc r => acc ++ "  - " ++ r ++ "\n")
    (withHighlights ++ "Recommendations:\n")

/-- `AnalyzePortfolioTool._run` from src/demo-langchain/agent/tools.py,
lines 253-281: same `try`/`except` shape as the portfolio tool, with the
error message `Error analyzing portfolio: {e}`. -/
def analyze_portfolio_run (loadKeypair : Except String Keypair)
    (send : Keypair → Except String (HttpResponse AnalysisJson)) : String :=
  match authenticate_request loadKeypair send with
  | .ok d => renderAnalysis d
  | .error e => "Error analyzing portfolio: " ++ e

/-! ## Verifier lemmas -/

theorem sign_signatureValid (kp : Keypair) (method path audience issuer : String)
    (timestamp : Nat) (body : Option String) :
    signatureValid (sign kp method path audience issuer timestamp body) = true := by
  simp [signatureValid, sign, signBytes, verifySig, encode]

theorem verify_ok_fields {config : VerificationConfig} {req : IncomingRequest}
    {token : CredentialToken} {now : Nat} {idt : AuthenticatedIdentity}
    (h : verify config req token now = .ok idt) :
    idt = ⟨token.address⟩ ∧ token.audience = config.audience := by
  unfold verify at h
  repeat' split at h
  all_goals first
    | exact Except.noConfusion h
    | (injection h with h2; subst h2; simp_all)

theorem verify_ok_of_checks {config : VerificationConfig} {req : IncomingRequest}
    {token : CredentialToken} {now : Nat}
    (hsig : signatureValid token = true)
    (hfr1 : (now : Int) - token.timestamp ≤ config.ttl_seconds + config.clock_skew_seconds)
    (hfr2 : -(config.clock_skew_seconds : Int) ≤ (now : Int) - token.timestamp)
    (haud : token.audience = config.audience)
    (hiss : token.issuer = config.issuer)
    (hbind : config.bind_method_path = true →
      token.method = req.method ∧ token.path = req.path)
    (horig : ∀ os, config.allowed_origins = some os → req.origin ∈ os) :
    verify config req token now = .ok ⟨token.address⟩ := by
  unfold verify
  rw [if_neg (not_not_intro hsig)]
  rw [if_neg (by omega)]
  rw [if_neg (by omega)]
  rw [if_neg (not_not_intro haud)]
  rw [if_neg (not_not_intro hiss)]
  rw [if_neg ?hb]
  case hb =>
    cases hb : config.bind_method_path
    · simp
    · obtain ⟨hm, hp⟩ := hbind hb
      simp [hm, hp]
  cases hO : config.allowed_origins with
  | none => simp [hO]
  | some os => simp [hO, horig os hO]

theorem verify_expired {config : VerificationConfig} {req : IncomingRequest}
    {token : CredentialToken} {now : Nat}
    (hsig : signatureValid token = true)
    (h : (now : Int) - token.timestamp >
      config.ttl_seconds + config.clock_skew_seconds) :
    verify config req token now = .error .EXPIRED := by
  unfold verify
  rw [if_neg (not_not_intro hsig), if_pos h]

theorem verify_not_yet_valid {config : VerificationConfig} {req : IncomingRequest}
    {token : CredentialToken} {now : Nat}
    (hsig : signatureValid token = true)
    (h : (now : Int) - token.timestamp < -(config.clock_skew_seconds : Int)) :
    verify config req token now = .error .NOT_YET_VALID := by
  unfold verify
  rw [if_neg (not_not_intro hsig), if_neg (by omega), if_pos h]

theorem verify_audience_mismatch {config : VerificationConfig} {req : IncomingRequest}
    {token : CredentialToken} {now : Nat}
    (hsig : signatureValid token = true)
    (hfr1 : (now : Int) - token.timestamp ≤ config.ttl_seconds + config.clock_skew_seconds)
    (hfr2 : -(config.clock_skew_seconds : Int) ≤ (now : Int) - token.timestamp)
    (haud : token.audience ≠ config.audience) :
    verify config req token now = .error .AUDIENCE_MISMATCH := by
  unfold verify
  rw [if_neg (not_not_intro hsig), if_neg (by omega), if_neg (by omega), if_pos haud]

theorem verify_binding_mismatch {config : VerificationConfig} {req : IncomingRequest}
    {token : CredentialToken} {now : Nat}
    (hsig : signatureValid token = true)
    (hfr1 : (now : Int) - token.timestamp ≤ config.ttl_seconds + config.clock_skew_seconds)
    (hfr2 : -(config.clock_skew_seconds : Int) ≤ (now : Int) - token.timestamp)
    (haud : token.audience = config.audience)
    (hiss : token.issuer = config.issuer)
    (hb : config.bind_method_path = true)
    (hmp : token.method ≠ req.method ∨ token.path ≠ req.path) :
    verify config req token now = .error .BINDING_MISMATCH := by
  unfold verify
  rw [if_neg (not_not_intro hsig), if_neg (by omega), if_neg (by omega),
    if_neg (not_not_intro haud), if_neg (not_not_intro hiss)]
  rw [if_pos ?hc]
  case hc =>
    rcases hmp with hm | hp
    · simp [hb, hm]
    · simp [hb, hp]

theorem verify_fresh_of_not_rejected {config : VerificationConfig}
    {req : IncomingRequest} {token : CredentialToken} {now : Nat}
    (hsig : signatureValid token = true)
    (hne : verify config req token now ≠ .error .EXPIRED)
    (hnn : verify config req token now ≠ .error .NOT_YET_VALID) :
    -(config.clock_skew_seconds : Int) ≤ (now : Int) - token.timestamp ∧
      (now : Int) - token.timestamp ≤
        config.ttl_seconds + config.clock_skew_seconds := by
  by_contra hcon
  push_neg at hcon
  rcases lt_or_le ((config.ttl_seconds : Int) + config.clock_skew_seconds)
      ((now : Int) - token.timestamp) with hgt | hle
  · exact hne (verify_expired hsig hgt)
  · have hlt : (now : Int) - token.timestamp < -(config.clock_skew_seconds : Int) := by
      by_contra hge
      push_neg at hge
      exact absurd hle (not_le.mpr (hcon hge))
    exact hnn (verify_not_yet_valid hsig hlt)

/-! ## Claims -/

/-- Claim C1: for every valid tuple (method, path, audience, issuer, body)
and fresh keypair, verifying a token produced by `sign` over that tuple
with a matching config and matching request succeeds and returns an
`AuthenticatedIdentity` whose address is the keypair's public address,
provided `config.audience` and `config.issuer` match the token's and
verification happens within `ttl_seconds` of signing. -/
theorem C1_sign_verify_roundtrip
    (kp : Keypair) (method path audience issuer : String)
    (timestamp : Nat) (body : Option String)
    (config : VerificationConfig) (origin : String) (now : Nat)
    (haud : config.audience = audience) (hiss : config.issuer = issuer)
    (h1 : timestamp ≤ now) (h2 : now - timestamp ≤ config.ttl_seconds)
    (horig : ∀ os, config.allowed_origins = some os → origin ∈ os) :
    verify config ⟨method, path, origin⟩
      (sign kp method path audience issuer timestamp body) now
      = .ok ⟨kp.address⟩ := by
  apply verify_ok_of_checks
  · exact sign_signatureValid kp method path audience issuer timestamp body
  · simp only [sign]
    omega
  · simp only [sign]
    omega
  · simp only [sign]
    exact haud.symm
  · simp only [sign]
    exact hiss.symm
  · intro _
    exact ⟨rfl, rfl⟩
  · exact horig

/-- Witness for C1 at the spec's concrete scenario: keypair K signs
GET /api/portfolio for audience api.example, issuer svc at t=1700000000;
the verifier (ttl 60, skew 5) called at now=1700000030 with the matching
request returns K's address. -/
theorem C1_witness :
    verify ⟨"api.example", "svc", 60, 5, false, [], none⟩
      ⟨"GET", "/api/portfolio", "browser"⟩
      (sign ⟨"K", 0⟩ "GET" "/api/portfolio" "api.example" "svc" 1700000000 none)
      1700000030 = .ok ⟨"K"⟩ :=
  C1_sign_verify_roundtrip ⟨"K", 0⟩ "GET" "/api/portfolio" "api.example" "svc"
    1700000000 none ⟨"api.example", "svc", 60, 5, false, [], none⟩ "browser"
    1700000030 rfl rfl (by decide) (by decide)
    (fun _ h => Option.noConfusion h)

/-- Claim C2: with a valid signature, verification passes the freshness
check exactly when `now - token.timestamp` lies within
`[-clock_skew_seconds, ttl_seconds + clock_skew_seconds]`; a token
verified at `timestamp + ttl + skew + 1` is rejected as EXPIRED, one
verified at `timestamp + ttl + skew - 1` is accepted when all other checks
pass, and a timestamp too far in the future is rejected as NOT_YET_VALID. -/
theorem C2_freshness_window
    (config : VerificationConfig) (req : IncomingRequest)
    (token : CredentialToken) (now : Nat)
    (hsig : signatureValid token = true) :
    ((verify config req token now ≠ .error .EXPIRED ∧
      verify config req token now ≠ .error .NOT_YET_VALID) ↔
      (-(config.clock_skew_seconds : Int) ≤ (now : Int) - token.timestamp ∧
        (now : Int) - token.timestamp ≤
          config.ttl_seconds + config.clock_skew_seconds)) ∧
    (now = token.timestamp + config.ttl_seconds + config.clock_skew_seconds + 1 →
      verify config req token now = .error .EXPIRED) ∧
    ((now : Int) - token.timestamp < -(config.clock_skew_seconds : Int) →
      verify config req token now = .error .NOT_YET_VALID) ∧
    (0 < config.ttl_seconds →
      token.audience = config.audience → token.issuer = config.issuer →
      (config.bind_method_path = true →
        token.method = req.method ∧ token.path = req.path) →
      (∀ os, config.allowed_origins = some os → req.origin ∈ os) →
      now + 1 = token.timestamp + config.ttl_seconds + config.clock_skew_seconds →
      verify config req token now = .ok ⟨token.address⟩) := by
  refine ⟨⟨fun h => verify_fresh_of_not_rejected hsig h.1 h.2, ?_⟩, ?_, ?_, ?_⟩
  · intro hwin
    unfold verify
    rw [if_neg (not_not_intro hsig), if_neg (by omega), if_neg (by omega)]
    refine ⟨?_, ?_⟩ <;> intro h <;> (repeat' split at h) <;> simp_all
  · intro hb
    exact verify_expired hsig (by omega)
  · intro hf
    exact verify_not_yet_valid hsig hf
  · intro httl haud hiss hbind horig hb
    exact verify_ok_of_checks hsig (by omega) (by omega) haud hiss hbind horig

/-- Witness for C2: a token signed at t=100 under ttl 60, skew 5 is
EXPIRED at now=166, accepted at now=164, and NOT_YET_VALID at now=94. -/
theorem C2_witness :
    verify ⟨"a", "i", 60, 5, false, [], none⟩ ⟨"GET", "/x", "o"⟩
      (sign ⟨"K", 0⟩ "GET" "/x" "a" "i" 100 none) 166 = .error .EXPIRED ∧
    verify ⟨"a", "i", 60, 5, false, [], none⟩ ⟨"GET", "/x", "o"⟩
      (sign ⟨"K", 0⟩ "GET" "/x" "a" "i" 100 none) 164 = .ok ⟨"K"⟩ ∧
    verify ⟨"a", "i", 60, 5, false, [], none⟩ ⟨"GET", "/x", "o"⟩
      (sign ⟨"K", 0⟩ "GET" "/x" "a" "i" 100 none) 94 = .error .NOT_YET_VALID :=
  ⟨(C2_freshness_window ⟨"a", "i", 60, 5, false, [], none⟩ ⟨"GET", "/x", "o"⟩
      (sign ⟨"K", 0⟩ "GET" "/x" "a" "i" 100 none) 166 (by decide)).2.1 (by decide),
   (C2_freshness_window ⟨"a", "i", 60, 5, false, [], none⟩ ⟨"GET", "/x", "o"⟩
      (sign ⟨"K", 0⟩ "GET" "/x" "a" "i" 100 none) 164 (by decide)).2.2.2
     (by decide) (by decide) (by decide) (fun _ => ⟨rfl, rfl⟩)
     (fun _ h => Option.noConfusion h) (by decide),
   (C2_freshness_window ⟨"a", "i", 60, 5, false, [], none⟩ ⟨"GET", "/x", "o"⟩
      (sign ⟨"K", 0⟩ "GET" "/x" "a" "i" 100 none) 94 (by decide)).2.2.1 (by decide)⟩

/-- Counterexample to claim C3 as stated: a token whose audience
("service-A") differs from the verifier's ("service-B") but whose
signature is forged is rejected with INVALID_SIGNATURE, not
AUDIENCE_MISMATCH — the signature check precedes the audience check. -/
theorem C3_counterexample :
    verify ⟨"service-B", "svc", 60, 5, false, [], none⟩ ⟨"GET", "/x", "o"⟩
      ⟨"K", ⟨"forged", encode "GET" "/x" "service-A" "svc" 100 (bodyDigest none)⟩,
        100, "service-A", "svc", "GET", "/x", bodyDigest none⟩ 110
      = .error .INVALID_SIGNATURE ∧
    ("service-A" : String) ≠ "service-B" ∧
    RejectionReason.INVALID_SIGNATURE ≠ RejectionReason.AUDIENCE_MISMATCH :=
  ⟨rfl, by decide, by decide⟩

/-- Claim C3 (amended): if the token's audience differs from the config's,
verification never succeeds; and when the signature and freshness checks
pass, the rejection reason is exactly AUDIENCE_MISMATCH — so a token
minted for service-A never verifies against a service-B config. -/
theorem C3_audience_isolation
    (config : VerificationConfig) (req : IncomingRequest)
    (token : CredentialToken) (now : Nat)
    (haud : token.audience ≠ config.audience) :
    (∀ idt, verify config req token now ≠ .ok idt) ∧
    (signatureValid token = true →
      -(config.clock_skew_seconds : Int) ≤ (now : Int) - token.timestamp →
      (now : Int) - token.timestamp ≤
        config.ttl_seconds + config.clock_skew_seconds →
      verify config req token now = .error .AUDIENCE_MISMATCH) := by
  constructor
  · intro idt h
    exact haud (verify_ok_fields h).2
  · intro hsig hlo hhi
    exact verify_audience_mismatch hsig hhi hlo haud

/-- Witness for C3: a properly signed, fresh token for audience service-A
is rejected with AUDIENCE_MISMATCH by a service-B verifier. -/
theorem C3_witness :
    verify ⟨"service-B", "svc", 60, 5, false, [], none⟩ ⟨"GET", "/x", "o"⟩
      (sign ⟨"K", 0⟩ "GET" "/x" "service-A" "svc" 100 none) 110
      = .error .AUDIENCE_MISMATCH :=
  (C3_audience_isolation ⟨"service-B", "svc", 60, 5, false, [], none⟩
      ⟨"GET", "/x", "o"⟩ (sign ⟨"K", 0⟩ "GET" "/x" "service-A" "svc" 100 none)
      110 (by decide)).2 (by decide) (by decide) (by decide)

/-- Per-request state preservation: no route handler of the trading backend
writes to the middleware configuration. -/
theorem handleRequest_config (s : AppState) (c : RouteCall) :
    (handleRequest s c).config = s.config := by
  cases c <;> rfl

/-- Claim C4: the method/path binding check is applied exactly when
`config.bind_method_path` is true.  For a properly signed fresh token with
matching audience and issuer: with binding on, any request whose method or
path differs from the token's is rejected with BINDING_MISMATCH; with
binding off (as both demo backends configure), the same token verifies
against every method and path. -/
theorem C4_binding_toggle
    (kp : Keypair) (method path audience issuer : String)
    (timestamp : Nat) (body : Option String)
    (config : VerificationConfig) (now : Nat)
    (haud : config.audience = audience) (hiss : config.issuer = issuer)
    (h1 : timestamp ≤ now)
    (h2 : now - timestamp ≤ config.ttl_seconds + config.clock_skew_seconds)
    (horig : ∀ req : IncomingRequest, ∀ os,
      config.allowed_origins = some os → req.origin ∈ os) :
    (config.bind_method_path = true →
      ∀ req : IncomingRequest, (method ≠ req.method ∨ path ≠ req.path) →
        verify config req (sign kp method path audience issuer timestamp body) now
          = .error .BINDING_MISMATCH) ∧
    (config.bind_method_path = false →
      ∀ req : IncomingRequest,
        verify config req (sign kp method path audience issuer timestamp body) now
          = .ok ⟨kp.address⟩) := by
  constructor
  · intro hb req hmp
    apply verify_binding_mismatch
    · exact sign_signatureValid kp method path audience issuer timestamp body
    · simp only [sign]
      omega
    · simp only [sign]
      omega
    · simp only [sign]
      exact haud.symm
    · simp only [sign]
      exact hiss.symm
    · exact hb
    · simpa only [sign] using hmp
  · intro hb req
    apply verify_ok_of_checks
    · exact sign_signatureValid kp method path audience issuer timestamp body
    · simp only [sign]
      omega
    · simp only [sign]
      omega
    · simp only [sign]
      exact haud.symm
    · simp only [sign]
      exact hiss.symm
    · intro h
      rw [hb] at h
      exact Bool.noConfusion h
    · exact horig req
  
/-- Witness for C4: with binding on, a token for GET /x is rejected with
BINDING_MISMATCH against POST /x; with binding off, the same token
verifies against POST /y. -/
theorem C4_witness :
    verify ⟨"a", "i", 60, 5, true, [], none⟩ ⟨"POST", "/x", "o"⟩
      (sign ⟨"K", 0⟩ "GET" "/x" "a" "i" 100 none) 110
      = .error .BINDING_MISMATCH ∧
    verify ⟨"a", "i", 60, 5, false, [], none⟩ ⟨"POST", "/y", "o"⟩
      (sign ⟨"K", 0⟩ "GET" "/x" "a" "i" 100 none) 110 = .ok ⟨"K"⟩ :=
  ⟨(C4_binding_toggle ⟨"K", 0⟩ "GET" "/x" "a" "i" 100 none
      ⟨"a", "i", 60, 5, true, [], none⟩ 110 rfl rfl (by decide) (by decide)
      (fun _ _ h => Option.noConfusion h)).1 rfl ⟨"POST", "/x", "o"⟩
      (Or.inl (by decide)),
   (C4_binding_toggle ⟨"K", 0⟩ "GET" "/x" "a" "i" 100 none
      ⟨"a", "i", 60, 5, false, [], none⟩ 110 rfl rfl (by decide) (by decide)
      (fun _ _ h => Option.noConfusion h)).2 rfl ⟨"POST", "/y", "o"⟩⟩

/-- Claim C5: a request whose path is in `excluded_paths` passes through
the interceptor with no verification and no identity attached; on any
other path the interceptor runs, an absent token is rejected with
MISSING_TOKEN, and a present token is handed to the verifier. -/
theorem C5_excluded_paths_bypass
    (config : VerificationConfig) (req : IncomingRequest)
    (token : Option CredentialToken) (now : Nat) :
    (req.path ∈ config.excluded_paths →
      intercept config req token now = .passthrough) ∧
    (req.path ∉ config.excluded_paths → token = none →
      intercept config req token now = .reject .MISSING_TOKEN) ∧
    (req.path ∉ config.excluded_paths → ∀ t, token = some t →
      intercept config req token now =
        match verify config req t now with
        | .ok idt => .proceed idt
        | .error r => .reject r) := by
  refine ⟨?_, ?_, ?_⟩
  · intro hmem
    unfold intercept
    rw [if_pos hmem]
  · intro hmem htok
    subst htok
    unfold intercept
    rw [if_neg hmem]
  · intro hmem t htok
    subst htok
    unfold intercept
    rw [if_neg hmem]

/-- Witness for C5: with excluded_paths = ["/health"], a tokenless request
to /health passes through, and a tokenless request to /api/x is rejected
with MISSING_TOKEN. -/
theorem C5_witness :
    intercept ⟨"a", "i", 60, 5, false, ["/health"], none⟩
      ⟨"GET", "/health", "o"⟩ none 0 = .passthrough ∧
    intercept ⟨"a", "i", 60, 5, false, ["/health"], none⟩
      ⟨"GET", "/api/x", "o"⟩ none 0 = .reject .MISSING_TOKEN :=
  ⟨(C5_excluded_paths_bypass ⟨"a", "i", 60, 5, false, ["/health"], none⟩
      ⟨"GET", "/health", "o"⟩ none 0).1 (by decide),
   (C5_excluded_paths_bypass ⟨"a", "i", 60, 5, false, ["/health"], none⟩
      ⟨"GET", "/api/x", "o"⟩ none 0).2.1 (by decide) rfl⟩

/-- Claim C6: the verification config is immutable across request
handling: every route handler of the trading backend leaves every field of
the config unchanged, and so does any sequence of handled requests. -/
theorem C6_config_immutable (s : AppState) (c : RouteCall)
    (calls : List RouteCall) :
    (handleRequest s c).config = s.config ∧
    (calls.foldl handleRequest s).config = s.config := by
  refine ⟨handleRequest_config s c, ?_⟩
  induction calls generalizing s with
  | nil => rfl
  | cons d ds ih =>
    rw [List.foldl_cons, ih (handleRequest s d), handleRequest_config s d]

/-- Claim C7: a token passing all checks yields the signer's identity:
`verify` returns exactly the token's address, `get_portfolio` reports that
address as the wallet, and `register_bot` records and returns it. -/
theorem C7_identity_to_routes :
    (∀ (config : VerificationConfig) (req : IncomingRequest)
        (token : CredentialToken) (now : Nat) (idt : AuthenticatedIdentity),
      verify config req token now = .ok idt → idt.address = token.address) ∧
    (∀ user : AuthenticatedIdentity, (get_portfolio user).wallet = user.address) ∧
    (∀ (bots : List (String × BotInfo)) (user : AuthenticatedIdentity)
        (nowIso : String),
      ((register_bot bots user nowIso).2).address = user.address ∧
      ((register_bot bots user nowIso).1).lookup (user.address.take 8) =
        some { address := user.address, connected_at := nowIso,
               status := "active" }) := by
  refine ⟨?_, fun _ => rfl, ?_⟩
  · intro config req token now idt h
    rw [(verify_ok_fields h).1]
  · intro bots user nowIso
    refine ⟨rfl, ?_⟩
    simp [register_bot, dictSet, List.lookup]

/-- Witness for C7: at a concrete accepted token, the identity address is
the token's; a concrete user's wallet and registration echo the address. -/
theorem C7_witness :
    (AuthenticatedIdentity.mk "K").address
      = (sign ⟨"K", 0⟩ "GET" "/x" "a" "i" 100 none).address ∧
    (get_portfolio ⟨"W"⟩).wallet = "W" ∧
    ((register_bot [] ⟨"WALLETADDR9"⟩ "t0").2).address = "WALLETADDR9" :=
  ⟨C7_identity_to_routes.1 ⟨"a", "i", 60, 5, false, [], none⟩ ⟨"GET", "/x", "o"⟩
      (sign ⟨"K", 0⟩ "GET" "/x" "a" "i" 100 none) 110 ⟨"K"⟩ (by rfl),
   C7_identity_to_routes.2.1 ⟨"W"⟩,
   (C7_identity_to_routes.2.2 [] ⟨"WALLETADDR9"⟩ "t0").1⟩

/-- Claim C8: the verifier is deterministic: two runs with the same
config, same incoming request, same token and same clock reading produce
identical results.  Side-effect freedom holds by construction of the
embedding: `verify` is a pure function of exactly these four inputs and
touches no other state. -/
theorem C8_verifier_deterministic
    (c₁ c₂ : VerificationConfig) (r₁ r₂ : IncomingRequest)
    (t₁ t₂ : CredentialToken) (n₁ n₂ : Nat)
    (hc : c₁ = c₂) (hr : r₁ = r₂) (ht : t₁ = t₂) (hn : n₁ = n₂) :
    verify c₁ r₁ t₁ n₁ = verify c₂ r₂ t₂ n₂ := by
  subst hc
  subst hr
  subst ht
  subst hn
  rfl

/-- Witness for C8 at a concrete verification run. -/
theorem C8_witness :
    verify ⟨"a", "i", 60, 5, false, [], none⟩ ⟨"GET", "/x", "o"⟩
      (sign ⟨"K", 0⟩ "GET" "/x" "a" "i" 100 none) 110
    = verify ⟨"a", "i", 60, 5, false, [], none⟩ ⟨"GET", "/x", "o"⟩
      (sign ⟨"K", 0⟩ "GET" "/x" "a" "i" 100 none) 110 :=
  C8_verifier_deterministic ⟨"a", "i", 60, 5, false, [], none⟩
    ⟨"a", "i", 60, 5, false, [], none⟩ ⟨"GET", "/x", "o"⟩ ⟨"GET", "/x", "o"⟩
    (sign ⟨"K", 0⟩ "GET" "/x" "a" "i" 100 none)
    (sign ⟨"K", 0⟩ "GET" "/x" "a" "i" 100 none) 110 110 rfl rfl rfl rfl

/-- One `execute_trade` call keeps the activity log within 100 entries. -/
theorem executeTrade_length_le (acts : List Activity)
    (user : AuthenticatedIdentity) (trade : TradeData) (nowIso : String)
    (h : acts.length ≤ 100) :
    ((executeTrade acts user trade nowIso).2).length ≤ 100 := by
  unfold executeTrade
  by_cases hlen : acts.length + 1 > 100
  · simp [hlen, List.length_dropLast]
    omega
  · simp only [List.length_cons, hlen, if_false, ite_false]
    omega

/-- The new activity is inserted at the front of the log. -/
theorem executeTrade_head (acts : List Activity)
    (user : AuthenticatedIdentity) (trade : TradeData) (nowIso : String) :
    ((executeTrade acts user trade nowIso).2).head? =
      some (executeTrade acts user trade nowIso).1 := by
  cases acts with
  | nil => rfl
  | cons b bs =>
    by_cases hlen : bs.length + 1 + 1 > 100
    · simp [executeTrade, hlen, List.dropLast_cons₂]
    · simp [executeTrade, hlen]

/-- Claim C9: the trading backend's activity log is bounded and
newest-first: starting from the empty list, after any sequence of
`execute_trade` calls the log holds at most 100 entries; each call places
its new activity at index 0, and the new activity's id is the length of
the log before insertion plus one. -/
theorem C9_activity_log_invariant :
    (∀ calls : List (AuthenticatedIdentity × TradeData × String),
      (calls.foldl (fun acts c => (executeTrade acts c.1 c.2.1 c.2.2).2)
        []).length ≤ 100) ∧
    (∀ (acts : List Activity) (user : AuthenticatedIdentity)
        (trade : TradeData) (nowIso : String),
      ((executeTrade acts user trade nowIso).2).head? =
        some (executeTrade acts user trade nowIso).1 ∧
      (executeTrade acts user trade nowIso).1.id = acts.length + 1) := by
  constructor
  · intro calls
    suffices h : ∀ acts : List Activity, acts.length ≤ 100 →
        (calls.foldl (fun acts c => (executeTrade acts c.1 c.2.1 c.2.2).2)
          acts).length ≤ 100 by
      exact h [] (by simp)
    induction calls with
    | nil => intro acts h; exact h
    | cons c cs ih =>
      intro acts h
      rw [List.foldl_cons]
      exact ih _ (executeTrade_length_le acts c.1 c.2.1 c.2.2 h)
  · intro acts user trade nowIso
    exact ⟨executeTrade_head acts user trade nowIso, rfl⟩

/-- Claim C10: every LangChain tool `_run` is total at its interface: for
every input it returns a string, and each failure mode — keypair-load
failure, an exception from the authenticated request, a non-200 HTTP
response — yields an `Error ...` message rather than a propagated
exception (shown for the portfolio and analysis tools the claim cites). -/
theorem C10_tool_run_total :
    (∀ (load : Except String Keypair)
        (send : Keypair → Except String (HttpResponse PortfolioJson)),
      ∃ s : String, get_portfolio_run load send = s) ∧
    (∀ (e : String) (send : Keypair → Except String (HttpResponse PortfolioJson)),
      get_portfolio_run (.error e) send =
        "Error fetching portfolio: Authentication request failed: " ++ e) ∧
    (∀ (kp : Keypair) (e : String),
      get_portfolio_run (.ok kp) (fun _ => .error e) =
        "Error fetching portfolio: Authentication request failed: " ++ e) ∧
    (∀ (kp : Keypair) (resp : HttpResponse PortfolioJson),
      resp.status_code ≠ 200 →
      get_portfolio_run (.ok kp) (fun _ => .ok resp) =
        "Error fetching portfolio: " ++ ("Authentication request failed: "
          ++ ("API returned " ++ toString resp.status_code ++ ": " ++ resp.text))) ∧
    (∀ (e : String) (send : Keypair → Except String (HttpResponse AnalysisJson)),
      analyze_portfolio_run (.error e) send =
        "Error analyzing portfolio: Authentication request failed: " ++ e) ∧
    (∀ (kp : Keypair) (resp : HttpResponse AnalysisJson),
      resp.status_code ≠ 200 →
      analyze_portfolio_run (.ok kp) (fun _ => .ok resp) =
        "Error analyzing portfolio: " ++ ("Authentication request failed: "
          ++ ("API returned " ++ toString resp.status_code ++ ": " ++ resp.text))) := by
  refine ⟨fun load send => ⟨_, rfl⟩, fun e send => rfl, fun kp e => rfl,
    ?_, fun e send => rfl, ?_⟩
  · intro kp resp hstatus
    simp [get_portfolio_run, authenticate_request, hstatus]
  · intro kp resp hstatus
    simp [analyze_portfolio_run, authenticate_request, hstatus]

/-- Witness for C10: a keypair-load failure and a 403 response both come
back as Error strings from the tool runners. -/
theorem C10_witness :
    get_portfolio_run (.error "boom") (fun _ => .error "unused")
      = "Error fetching portfolio: Authentication request failed: boom" ∧
    get_portfolio_run (.ok ⟨"K", 0⟩) (fun _ => .ok ⟨403, "denied", ⟨none, none, []⟩⟩)
      = "Error fetching portfolio: Authentication request failed: API returned 403: denied" ∧
    analyze_portfolio_run (.ok ⟨"K", 0⟩)
      (fun _ => .ok ⟨500, "oops", ⟨none, none, none, [], []⟩⟩)
      = "Error analyzing portfolio: Authentication request failed: API returned 500: oops" :=
  ⟨C10_tool_run_total.2.1 "boom" (fun _ => .error "unused"),
   C10_tool_run_total.2.2.2.1 ⟨"K", 0⟩ ⟨403, "denied", ⟨none, none, []⟩⟩ (by decide),
   C10_tool_run_total.2.2.2.2.2 ⟨"K", 0⟩ ⟨500, "oops", ⟨none, none, none, [], []⟩⟩
     (by decide)⟩

end OpenKit
